import Mathlib

/-!
Verification of the deepagents Monty REPL adapter and session layer.

This file shallowly embeds the code of
  libs/deepagents/deepagents/backends/repl.py  (class _MontyOS, class MontyREPL)
  libs/deepagents/deepagents/middleware/repl.py (MontyMiddleware._create_repl_tool._run_monty)
and proves or refutes the spec's claims about it.

Modelling choices:
  * Python `PurePosixPath` values are modelled by a root flag plus the list
    of (normalised) components, exactly the data `PurePosixPath` keeps.
  * The storage backend (`BackendProtocol`, declared in
    deepagents/backends/protocol.py, which is not part of the studied slice)
    is modelled from the spec's Backend Capability Interface: listing,
    download, upload, write.  Backend state is threaded explicitly.
  * The embedded Monty engine (external package `pydantic_monty`) is an
    abstract parameter: construction either succeeds or yields the
    MontyError text the code catches; a run yields the printed values in
    emission order plus either a final value or a MontyError text.
  * Exceptions are modelled with `Except`; functions of the adapter that can
    raise return `Except String α`.
-/

/-- Model of a normalised `pathlib.PurePosixPath`: whether the path is
absolute, and its components (`parts`, excluding the root). -/
structure PurePosixPath where
  absolute : Bool
  parts : List String
deriving DecidableEq

/-- `str(path)`: "/" for the absolute root, "." for the empty relative path,
otherwise the components joined by "/" (with a leading "/" when absolute). -/
def PurePosixPath.toStr : PurePosixPath → String
  | ⟨true, ps⟩ => "/" ++ String.intercalate "/" ps
  | ⟨false, []⟩ => "."
  | ⟨false, ps⟩ => String.intercalate "/" ps

/-- `path.parent`: drop the last component; the root and the empty relative
path are their own parents (as in `pathlib`). -/
def PurePosixPath.parent : PurePosixPath → PurePosixPath
  | ⟨abs, ps⟩ => ⟨abs, ps.dropLast⟩

/-- The absolute root path "/". -/
def rootPath : PurePosixPath := ⟨true, []⟩

/-- Modelled from the spec: a `FileInfo` entry (`PathEntry`) produced by a
backend listing.  The adapter reads it with `info.get("path")` (absent-safe,
hence `Option`), `bool(info.get("is_dir", False))` and
`info.get("size", 0)`. -/
structure FileInfo where
  path : Option String
  is_dir : Bool
  size : Option Int
deriving DecidableEq

/-- Modelled from the spec: the backend's response for one downloaded path:
`{path, content: bytes|null, error: optional string}`. -/
structure FileDownloadResponse where
  content : Option (List UInt8)
  error : Option String
deriving DecidableEq

/-- Modelled from the spec: backend response for one uploaded path. -/
structure FileUploadResponse where
  path : String
  error : Option String
deriving DecidableEq

/-- Modelled from the spec: result of the backend's single-path text write. -/
structure WriteResult where
  error : Option String
deriving DecidableEq

/-- Modelled from the spec: the Backend Capability Interface
(`BackendProtocol`, declared in deepagents/backends/protocol.py which is
outside the studied slice): listing, content download, content upload,
single-path write.  The backend's internal mutable state is threaded
explicitly with type `σ`; `download_files`/`ls_info` are read-only queries,
`upload_files`/`write` return the updated state together with the backend's
response.  `download_files` is given per requested path (the adapter only
ever requests one path and takes element 0 of the response list). -/
structure Backend (σ : Type) where
  ls_info : σ → String → List FileInfo
  download_files : σ → String → FileDownloadResponse
  upload_files : σ → List (String × List UInt8) → σ × List FileUploadResponse
  write : σ → String → String → σ × WriteResult

namespace MontyOS

/-- Embedding of `_MontyOS.path_exists` (identical in backends/repl.py and
middleware/repl.py): root always exists; otherwise a non-empty listing of the
path itself means it exists; otherwise (unless the parent string equals the
path string) the path exists iff some entry of the parent's listing has this
path. -/
def path_exists {σ : Type} (b : Backend σ) (s : σ) (path : PurePosixPath) : Bool :=
  let p := path.toStr
  if p = "/" then true
  else
    let infos := b.ls_info s p
    if !infos.isEmpty then true
    else
      let parent := path.parent.toStr
      if parent = p then false
      else (b.ls_info s parent).any (fun info => info.path = some p)

/-- Embedding of `_MontyOS.path_is_file`: root is never a file; the first
entry of the parent's listing matching the path decides via its `is_dir`
flag; otherwise fall back to a download: a file iff no error and non-null
content. -/
def path_is_file {σ : Type} (b : Backend σ) (s : σ) (path : PurePosixPath) : Bool :=
  let p := path.toStr
  if p = "/" then false
  else
    match (b.ls_info s path.parent.toStr).find? (fun info => info.path = some p) with
    | some info => !info.is_dir
    | none =>
      let res := b.download_files s p
      res.error.isNone && res.content.isSome

/-- Embedding of `_MontyOS.path_is_dir`: root is always a directory; the
first matching parent-listing entry decides via `is_dir`; otherwise fall
back to a non-empty listing of the path itself. -/
def path_is_dir {σ : Type} (b : Backend σ) (s : σ) (path : PurePosixPath) : Bool :=
  let p := path.toStr
  if p = "/" then true
  else
    match (b.ls_info s path.parent.toStr).find? (fun info => info.path = some p) with
    | some info => info.is_dir
    | none => !(b.ls_info s p).isEmpty

/-- Embedding of `_MontyOS.path_read_bytes`: download the single path; raise
`FileNotFoundError(p)` (modelled as `Except.error p`) when the backend
reports an error or null content, else return the content. -/
def path_read_bytes {σ : Type} (b : Backend σ) (s : σ) (path : PurePosixPath) :
    Except String (List UInt8) :=
  let p := path.toStr
  let res := b.download_files s p
  match res.error, res.content with
  | none, some c => Except.ok c
  | _, _ => Except.error p

/-- Embedding of `_MontyOS.path_write_text`: delegate to the backend's
single-path write; the backend's `WriteResult` is discarded and nothing is
raised.  The returned state is the backend's updated state. -/
def path_write_text {σ : Type} (b : Backend σ) (s : σ) (path : PurePosixPath)
    (data : String) : Except String σ :=
  Except.ok (b.write s path.toStr data).1

/-- Embedding of `_MontyOS.path_write_bytes`: delegate to the backend's batch
upload with a single-entry batch; the backend's response list is discarded
and nothing is raised. -/
def path_write_bytes {σ : Type} (b : Backend σ) (s : σ) (path : PurePosixPath)
    (data : List UInt8) : Except String σ :=
  Except.ok (b.upload_files s [(path.toStr, data)]).1

end MontyOS

/-- Model of `pydantic_monty.ResourceLimits`; only `max_duration_secs` is
ever set by this code. -/
structure ResourceLimits where
  max_duration_secs : Option Int := none
deriving DecidableEq

/-- Outcome of one engine run: the values printed by the script in emission
order, and either the final result value or the raised MontyError's text. -/
structure RunResult (V : Type) where
  prints : List V
  outcome : Except String V

/-- Abstract model of the external `pydantic_monty` engine, the parameter of
both execution entry points.  `pyStr` is Python's `str` conversion for
sandbox values; `construct` is `Monty(code, ...)`, yielding `some e` when it
raises a MontyError with text `e`; `run` executes the constructed engine
under the given resource limits (the bound virtual filesystem, inputs and
foreign-function wiring of the source are fixed per middleware instance and
are absorbed into the engine parameter). -/
structure MontyEngine (V : Type) where
  pyStr : V → String
  construct : String → Option String
  run : String → ResourceLimits → RunResult V

/-- Model of `ReplResponse` from deepagents/backends/protocol.py (outside the
studied slice): textual output plus optional error. -/
structure ReplResponse where
  output : String
  error : Option String := none
deriving DecidableEq

/-- The body of `_run_monty` after timeout validation: construction (a
MontyError text is returned as the result), then run, collecting each
printed value through the print callback as its `str`; a MontyError during
the run is returned as just its text (the collected prints are discarded);
on success return the printed strings joined with newlines. -/
def run_monty_go {V : Type} (eng : MontyEngine V) (code : String)
    (limits : ResourceLimits) : String :=
  match eng.construct code with
  | some e => e
  | none =>
    let r := eng.run code limits
    match r.outcome with
    | Except.error e => e
    | Except.ok _ => String.intercalate "\n" (r.prints.map eng.pyStr)

/-- Embedding of `_run_monty` from `MontyMiddleware._create_repl_tool`
(middleware/repl.py): validate a supplied timeout (non-positive values yield
an immediate error string, independent of the engine), then hand over to
`run_monty_go` with the resource limits the source builds. -/
def run_monty {V : Type} (eng : MontyEngine V) (code : String)
    (timeout : Option Int) : String :=
  match timeout with
  | some t =>
    if t ≤ 0 then "Error: timeout must be positive, got " ++ toString t ++ "."
    else run_monty_go eng code { max_duration_secs := some t }
  | none => run_monty_go eng code {}

/-- Embedding of `MontyREPL.repl` (backends/repl.py): construct the engine
(any exception is returned as `ReplResponse(output="", error=str(e))`),
build resource limits from the optional timeout with no validation at all,
run (again returning any exception as the response's error), and on success
return `ReplResponse(output=str(result))` — the string form of the run's
final value. -/
def MontyREPL.repl {V : Type} (eng : MontyEngine V) (code : String)
    (timeout : Option Int) : ReplResponse :=
  match eng.construct code with
  | some e => { output := "", error := some e }
  | none =>
    let limits : ResourceLimits :=
      match timeout with
      | some t => { max_duration_secs := some t }
      | none => {}
    match (eng.run code limits).outcome with
    | Except.error e => { output := "", error := some e }
    | Except.ok v => { output := eng.pyStr v }

/-- A concrete one-file backend over trivial state, mirroring the `_Backend`
stub of the repository's adapter tests: listing any path yields the single
entry `/a.txt`. -/
def demoB : Backend Unit where
  ls_info := fun _ _ => [{ path := some "/a.txt", is_dir := false, size := some 2 }]
  download_files := fun _ _ => { content := some [104, 105], error := none }
  upload_files := fun s _ => (s, [])
  write := fun s _ _ => (s, { error := none })

/-- A flat key-value backend: all listings are empty, every download
succeeds with content.  Used to separate the download-based fallback of
`path_is_file` from `path_exists`. -/
def flatB : Backend Unit where
  ls_info := fun _ _ => []
  download_files := fun _ _ => { content := some [104], error := none }
  upload_files := fun s _ => (s, [])
  write := fun s _ _ => (s, { error := none })

/-- A backend whose write and upload primitives always report errors. -/
def failB : Backend Unit where
  ls_info := fun _ _ => []
  download_files := fun _ _ => { content := none, error := some "file_not_found" }
  upload_files := fun s fs => (s, fs.map (fun f => { path := f.1, error := some "upload failed" }))
  write := fun s _ _ => (s, { error := some "write failed" })

/-- An association-list store backend: upload prepends the written pairs,
download looks the path up. -/
def listStore : Backend (List (String × List UInt8)) where
  ls_info := fun _ _ => []
  download_files := fun s p =>
    match s.lookup p with
    | some d => { content := some d, error := none }
    | none => { content := none, error := some "file_not_found" }
  upload_files := fun s fs => (fs ++ s, fs.map (fun f => { path := f.1, error := none }))
  write := fun s _ _ => (s, { error := none })


/-- Claim C6: for every backend, exists("/") is true, is_dir("/") is true and
is_file("/") is false; and for every path p other than "/", exists(p) is true
iff the backend's listing of p itself is non-empty or p equals the path of
some entry of the backend's listing of p's parent. -/
theorem exists_root_and_listing (σ : Type) (b : Backend σ) (s : σ) :
    MontyOS.path_exists b s rootPath = true ∧
    MontyOS.path_is_dir b s rootPath = true ∧
    MontyOS.path_is_file b s rootPath = false ∧
    ∀ p : PurePosixPath, p.toStr ≠ "/" →
      (MontyOS.path_exists b s p = true ↔
        b.ls_info s p.toStr ≠ [] ∨
        ∃ info ∈ b.ls_info s p.parent.toStr, info.path = some p.toStr) := by
  refine ⟨rfl, rfl, rfl, ?_⟩
  intro p hp
  unfold MontyOS.path_exists
  simp only [hp, if_false, ite_false, Bool.not_eq_true', List.isEmpty_eq_true,
    List.isEmpty_eq_false, Bool.not_eq_false]
  by_cases h1 : b.ls_info s p.toStr = []
  · by_cases h2 : p.parent.toStr = p.toStr
    · simp [h1, h2]
    · simp [h1, h2]
  · simp [h1]

/-- Concrete instantiation of claim C6's statement: on the one-file demo
backend, the non-root path "/a.txt" exists. -/
theorem exists_root_and_listing_witness :
    (⟨true, ["a.txt"]⟩ : PurePosixPath).toStr ≠ "/" ∧
    MontyOS.path_exists demoB () ⟨true, ["a.txt"]⟩ = true :=
  ⟨by decide,
    ((exists_root_and_listing Unit demoB ()).2.2.2 ⟨true, ["a.txt"]⟩ (by decide)).mpr
      (Or.inl (by decide))⟩

/-- Claim C7: for every backend and path p other than "/" that is
discoverable via the parent listing (some entry of the parent's listing has
path p), p exists and exactly one of is_file(p), is_dir(p) holds. -/
theorem file_dir_exclusive (σ : Type) (b : Backend σ) (s : σ) (p : PurePosixPath)
    (hp : p.toStr ≠ "/")
    (hd : (b.ls_info s p.parent.toStr).any (fun info => info.path = some p.toStr) = true) :
    MontyOS.path_exists b s p = true ∧
    MontyOS.path_is_file b s p = !MontyOS.path_is_dir b s p := by
  have hsome : ((b.ls_info s p.parent.toStr).find?
      (fun info => decide (info.path = some p.toStr))).isSome := by
    rw [List.any_eq_true] at hd
    exact List.find?_isSome.mpr hd
  obtain ⟨info, hinfo⟩ := Option.isSome_iff_exists.mp hsome
  constructor
  · unfold MontyOS.path_exists
    by_cases h1 : b.ls_info s p.toStr = []
    · have h2 : p.parent.toStr ≠ p.toStr := by
        intro h
        rw [h, h1] at hd
        simp at hd
      simp [hp, h1, h2, hd]
    · simp [hp, h1]
  · unfold MontyOS.path_is_file MontyOS.path_is_dir
    simp [hp, hinfo]

/-- Concrete instantiation of claim C7's statement: on the one-file demo
backend, "/a.txt" is discoverable via the parent listing, it exists, and it
is a file and not a directory. -/
theorem file_dir_exclusive_witness :
    (demoB.ls_info () (⟨true, ["a.txt"]⟩ : PurePosixPath).parent.toStr).any
      (fun info => info.path = some (⟨true, ["a.txt"]⟩ : PurePosixPath).toStr) = true ∧
    MontyOS.path_exists demoB () ⟨true, ["a.txt"]⟩ = true ∧
    MontyOS.path_is_file demoB () ⟨true, ["a.txt"]⟩ =
      !MontyOS.path_is_dir demoB () ⟨true, ["a.txt"]⟩ := by
  refine ⟨by decide, ?_, ?_⟩
  · exact (file_dir_exclusive Unit demoB () ⟨true, ["a.txt"]⟩ (by decide) (by decide)).1
  · exact (file_dir_exclusive Unit demoB () ⟨true, ["a.txt"]⟩ (by decide) (by decide)).2

/-- A backend's upload and download primitives are faithful when downloading
a path right after uploading it returns exactly the stored bytes with no
error. -/
def Faithful {σ : Type} (b : Backend σ) : Prop :=
  ∀ (s : σ) (p : String) (data : List UInt8),
    b.download_files (b.upload_files s [(p, data)]).1 p =
      { content := some data, error := none }

/-- The association-list store is faithful. -/
theorem listStore_faithful : Faithful listStore := by
  intro s p data
  simp [listStore]

/-- Claim C8: for every faithful backend, writing bytes to a path and then
reading bytes from it returns exactly the written bytes (round trip through
the adapter). -/
theorem write_read_roundtrip (σ : Type) (b : Backend σ) (hb : Faithful b)
    (s : σ) (p : PurePosixPath) (data : List UInt8) :
    MontyOS.path_write_bytes b s p data =
      Except.ok (b.upload_files s [(p.toStr, data)]).1 ∧
    MontyOS.path_read_bytes b (b.upload_files s [(p.toStr, data)]).1 p =
      Except.ok data := by
  refine ⟨rfl, ?_⟩
  simp [MontyOS.path_read_bytes, hb s p.toStr data]

/-- Concrete instantiation of claim C8's statement: on the association-list
store, writing then reading "/f" round-trips the bytes [1, 2]. -/
theorem write_read_roundtrip_witness :
    Faithful listStore ∧
    MontyOS.path_read_bytes listStore
      (listStore.upload_files [] [((⟨true, ["f"]⟩ : PurePosixPath).toStr, [1, 2])]).1
      ⟨true, ["f"]⟩ = Except.ok [1, 2] :=
  ⟨listStore_faithful,
    (write_read_roundtrip (List (String × List UInt8)) listStore listStore_faithful
      [] ⟨true, ["f"]⟩ [1, 2]).2⟩

/-- Claim C9: for every backend, the adapter's write_text and write_bytes
discard the backend's response and return normally: even when the backend's
write (resp. upload) reports an error for the path, the adapter raises
nothing and yields the backend's updated state as a success. -/
theorem write_discards_backend_errors (σ : Type) (b : Backend σ) (s : σ)
    (p : PurePosixPath) (txt : String) (data : List UInt8) (e1 e2 : String)
    (_hw : (b.write s p.toStr txt).2 = { error := some e1 })
    (_hu : (b.upload_files s [(p.toStr, data)]).2 = [{ path := p.toStr, error := some e2 }]) :
    MontyOS.path_write_text b s p txt = Except.ok (b.write s p.toStr txt).1 ∧
    MontyOS.path_write_bytes b s p data = Except.ok (b.upload_files s [(p.toStr, data)]).1 :=
  ⟨rfl, rfl⟩

/-- Concrete instantiation of claim C9's statement: on the always-failing
backend, both adapter writes succeed even though the backend reports
errors. -/
theorem write_discards_backend_errors_witness :
    (failB.write () (⟨true, ["f"]⟩ : PurePosixPath).toStr "hi").2 = { error := some "write failed" } ∧
    (failB.upload_files () [((⟨true, ["f"]⟩ : PurePosixPath).toStr, [7])]).2 =
      [{ path := (⟨true, ["f"]⟩ : PurePosixPath).toStr, error := some "upload failed" }] ∧
    MontyOS.path_write_text failB () ⟨true, ["f"]⟩ "hi" = Except.ok () ∧
    MontyOS.path_write_bytes failB () ⟨true, ["f"]⟩ [7] = Except.ok () := by
  refine ⟨rfl, rfl, ?_, ?_⟩
  · exact (write_discards_backend_errors Unit failB () ⟨true, ["f"]⟩ "hi" [7]
      "write failed" "upload failed" rfl rfl).1
  · exact (write_discards_backend_errors Unit failB () ⟨true, ["f"]⟩ "hi" [7]
      "write failed" "upload failed" rfl rfl).2

/-- Claim C10: there is a backend (a flat key-value store: empty listings,
successful downloads) and a non-root path for which is_file is true while
exists is false — the download-based fallback is used by is_file but never
by exists. -/
theorem is_file_exists_divergence :
    ∃ (σ : Type) (b : Backend σ) (s : σ) (p : PurePosixPath),
      p.toStr ≠ "/" ∧
      b.ls_info s p.toStr = [] ∧
      b.ls_info s p.parent.toStr = [] ∧
      (b.download_files s p.toStr).error = none ∧
      (b.download_files s p.toStr).content ≠ none ∧
      MontyOS.path_is_file b s p = true ∧
      MontyOS.path_exists b s p = false :=
  ⟨Unit, flatB, (), ⟨true, ["a"]⟩, by decide, by decide, by decide, by decide,
    by decide, by decide, by decide⟩

/-- An engine whose construction succeeds and whose every run prints "p1"
and finishes with final value "7". -/
def demoEngOk : MontyEngine String where
  pyStr := id
  construct := fun _ => none
  run := fun _ _ => { prints := ["p1"], outcome := Except.ok "7" }

/-- An engine whose construction succeeds and whose every run prints "line1"
and "line2" and then raises a MontyError with text "boom". -/
def demoEngFail : MontyEngine String where
  pyStr := id
  construct := fun _ => none
  run := fun _ _ => { prints := ["line1", "line2"], outcome := Except.error "boom" }

/-- An engine mirroring the repository's own middleware test input: running
"1 + 1" prints nothing and evaluates to "2". -/
def calcEng : MontyEngine String where
  pyStr := id
  construct := fun _ => none
  run := fun _ _ => { prints := [], outcome := Except.ok "2" }

/-- An engine whose construction always raises a MontyError "oops". -/
def badEng : MontyEngine String where
  pyStr := id
  construct := fun _ => some "oops"
  run := fun _ _ => { prints := [], outcome := Except.ok "" }

/-- Claim C1 counterexample: timeout validation does not precede all work in
every entry point.  With timeout 0, MontyREPL.repl does not return the
"timeout must be positive" error: it constructs and runs the engine and
returns the engine's result; and with a very large timeout the middleware
repl tool returns the engine's output rather than any error naming a
ceiling. -/
theorem timeout_validation_counterexample :
    MontyREPL.repl demoEngOk "x" (some 0) = { output := "7", error := none } ∧
    run_monty demoEngOk "x" (some 1000000) = "p1" := by
  exact ⟨rfl, by decide⟩

/-- Claim C1 (amended): only the middleware repl tool validates the timeout,
and only against non-positive values: for every engine (hence before any
engine construction or backend call) and every timeout t ≤ 0 it returns
exactly "Error: timeout must be positive, got N.". -/
theorem timeout_validation_amended (V : Type) (eng : MontyEngine V)
    (code : String) (t : Int) (ht : t ≤ 0) :
    run_monty eng code (some t) =
      "Error: timeout must be positive, got " ++ toString t ++ "." := by
  simp [run_monty, ht]

/-- Concrete instantiation of amended claim C1: timeout 0 on the demo engine
yields the validation error. -/
theorem timeout_validation_amended_witness :
    (0 : Int) ≤ 0 ∧
    run_monty demoEngOk "x" (some 0) = "Error: timeout must be positive, got 0." :=
  ⟨by decide,
    (timeout_validation_amended String demoEngOk "x" 0 (by decide)).trans (by decide)⟩

/-- Claim C2 counterexample: a run that fails after printing "line1" and
"line2" with error "boom" returns just "boom" from the middleware repl tool,
not "line1\nline2\n[Error]\nboom". -/
theorem failure_output_counterexample :
    run_monty demoEngFail "x" none = "boom" ∧
    "boom" ≠ "line1\nline2\n[Error]\nboom" :=
  ⟨rfl, by decide⟩

/-- Claim C2 (amended): when a script execution through the middleware repl
tool fails, the returned text is just the error message; printed output
produced before the failure is discarded and no "[Error]" marker is
emitted. -/
theorem failure_output_amended (V : Type) (eng : MontyEngine V) (code : String)
    (e : String) (hc : eng.construct code = none)
    (hr : (eng.run code {}).outcome = Except.error e) :
    run_monty eng code none = e := by
  simp [run_monty, run_monty_go, hc, hr]

/-- Concrete instantiation of amended claim C2: the failing demo engine's
error text "boom" is returned alone. -/
theorem failure_output_amended_witness :
    demoEngFail.construct "x" = none ∧
    (demoEngFail.run "x" {}).outcome = Except.error "boom" ∧
    run_monty demoEngFail "x" none = "boom" :=
  ⟨rfl, rfl, failure_output_amended String demoEngFail "x" "boom" rfl rfl⟩

/-- Claim C3, evaluation at the failing input of the repository's own test:
invoking the middleware repl tool on "1 + 1" returns the bare string "" (the
joined printed output); the tool's result carries no state value at all, so
no "repl_state" field is ever written back. -/
theorem repl_state_code_eval : run_monty calcEng "1 + 1" none = "" := rfl

/-- Claim C4: on a successful run, the middleware repl tool returns the
printed values converted to strings and joined with newlines in emission
order, while MontyREPL.repl returns the string form of the run's final
value. -/
theorem entry_point_outputs (V : Type) (eng : MontyEngine V) (code : String)
    (ps : List V) (v : V) (hc : eng.construct code = none)
    (hr : eng.run code {} = { prints := ps, outcome := Except.ok v }) :
    run_monty eng code none = String.intercalate "\n" (ps.map eng.pyStr) ∧
    MontyREPL.repl eng code none = { output := eng.pyStr v, error := none } := by
  constructor
  · simp [run_monty, run_monty_go, hc, hr]
  · simp [MontyREPL.repl, hc, hr]

/-- Concrete instantiation of claim C4: the demo engine prints "p1" and ends
with value "7"; the tool returns "p1", the one-shot call returns "7". -/
theorem entry_point_outputs_witness :
    demoEngOk.construct "x" = none ∧
    demoEngOk.run "x" {} = { prints := ["p1"], outcome := Except.ok "7" } ∧
    run_monty demoEngOk "x" none = "p1" ∧
    MontyREPL.repl demoEngOk "x" none = { output := "7", error := none } := by
  have h := entry_point_outputs String demoEngOk "x" ["p1"] "7" rfl rfl
  exact ⟨rfl, rfl, h.1.trans (by decide), h.2⟩

/-- Claim C5: every construction failure and every runtime failure of the
engine is returned as a normal result value carrying the error text — the
entry points are total functions into plain result types, so no exception
crosses their boundary. -/
theorem errors_as_results (V : Type) (eng : MontyEngine V) (code : String)
    (e : String) (t : Int) (ht : 0 < t) :
    (eng.construct code = some e →
      run_monty eng code (some t) = e ∧
      MontyREPL.repl eng code (some t) = { output := "", error := some e }) ∧
    (eng.construct code = none →
      (eng.run code { max_duration_secs := some t }).outcome = Except.error e →
      run_monty eng code (some t) = e ∧
      MontyREPL.repl eng code (some t) = { output := "", error := some e }) := by
  have hts : ¬ t ≤ 0 := not_le.mpr ht
  constructor
  · intro hc
    constructor
    · simp [run_monty, run_monty_go, hts, hc]
    · simp [MontyREPL.repl, hc]
  · intro hc hr
    constructor
    · simp [run_monty, run_monty_go, hts, hc, hr]
    · simp [MontyREPL.repl, hc, hr]

/-- Concrete instantiation of claim C5: the always-failing-construction
engine's MontyError "oops" is carried in both entry points' results. -/
theorem errors_as_results_witness :
    (0 : Int) < 5 ∧
    badEng.construct "(" = some "oops" ∧
    run_monty badEng "(" (some 5) = "oops" ∧
    MontyREPL.repl badEng "(" (some 5) = { output := "", error := some "oops" } := by
  have h := (errors_as_results String badEng "(" "oops" 5 (by decide)).1 rfl
  exact ⟨by decide, rfl, h.1, h.2⟩
